import Mathlib

/-!
Verification of the ACME account-provisioning core of kube-lego
(`pkg/acme/user.go`): key generation, account creation, account loading
and contact validation, as a shallow embedding in Lean 4.

External collaborators (the kubelego config/store interface and the
`golang.org/x/crypto/acme` directory client) are modelled as an
environment of response functions; every call to a collaborator is
recorded in an event trace so that frame properties (which calls happen,
and how often) can be stated.
-/

/-- Elliptic curves selectable in `generatePrivateKey`. -/
inductive Curve where
  | p224
  | p256
  | p384
  | p521
deriving DecidableEq, Repr

/-- Key family, from the kubelego constants `KeyTypeRsa` / `KeyTypeEcdsa`. -/
inductive KeyType where
  | rsa
  | ec
deriving DecidableEq, Repr

/-- Symbolic RSA private key: bit size plus an abstract seed identifying
the concrete key material drawn from the random source. -/
structure RsaKey where
  bits : Nat
  seed : Nat
deriving DecidableEq, Repr

/-- Symbolic ECDSA private key: its curve plus an abstract seed. -/
structure EcKey where
  curve : Curve
  seed : Nat
deriving DecidableEq, Repr

/-- A `crypto.Signer`: either an RSA or an EC private key. -/
inductive Signer where
  | rsa (k : RsaKey)
  | ec (k : EcKey)
deriving DecidableEq, Repr

/-- Symbolic DER payload of a PEM block: either a PKCS#1-encoded RSA key
(`x509.MarshalPKCS1PrivateKey`), a SEC1-encoded EC key
(`x509.MarshalECPrivateKey`), or junk bytes. -/
inductive Der where
  | pkcs1 (k : RsaKey)
  | sec1 (k : EcKey)
  | junk (s : String)
deriving DecidableEq, Repr

/-- A `pem.Block`: type tag and DER payload. -/
structure PemBlock where
  pemType : String
  bytes : Der
deriving DecidableEq, Repr

/-- The JSON registration blob stored under the legacy key
(`acmeAccountRegistration`).
Modelled from the spec: the struct definition is outside `user.go`; the
spec describes it as a JSON object containing a `URI` field. -/
structure AcmeAccountRegistration where
  uri : String
deriving DecidableEq, Repr

/-- Symbolic byte strings as they occur in the account secret: a PEM
encoding of a block (`pem.EncodeToMemory`), a plain string (the
registration URI), a JSON encoding of the legacy registration blob, or
arbitrary raw bytes that are none of these. -/
inductive Bytes where
  | pem (block : PemBlock)
  | str (s : String)
  | json (reg : AcmeAccountRegistration)
  | raw (s : String)
deriving DecidableEq, Repr

/-- `string(b)`: read the bytes back as a string. -/
def Bytes.asString : Bytes → String
  | .pem _ => "<pem>"
  | .str s => s
  | .json _ => "<json>"
  | .raw s => s

/-- `pem.Decode`: returns the block when the data is a well-formed PEM
encoding, and `none` (Go: a nil block pointer) otherwise. -/
def pemDecode : Bytes → Option PemBlock
  | .pem b => some b
  | _ => none

/-- Store keys from `kubelego_const` (values opaque; only their
distinctness matters). -/
def AcmePrivateKey : String := "acme.private-key"

/-- Store key for the directly persisted registration URI. -/
def AcmeRegistrationUrl : String := "acme.registration-url"

/-- Store key for the legacy JSON registration blob. -/
def AcmeRegistration : String := "acme.registration"

/-- The persisted user data: a string-keyed map of byte values,
modelled as an association list with unique keys. -/
def Store : Type := List (String × Bytes)

instance : DecidableEq Store := by
  unfold Store
  infer_instance

/-- Go map indexing `m[k]` with its `, ok` result. -/
def lookupKey : List (String × Bytes) → String → Option Bytes
  | [], _ => none
  | (k, v) :: rest, key => if k = key then some v else lookupKey rest key

/-- Errors surfaced by this core.  Collaborator failures arrive as
`external msg`; the wrapping constructors record exactly what the
`fmt.Errorf` wrap in the source carries. -/
inductive Err where
  | external (msg : String)
  | missingPrivateKey
  | missingAccountURI
  | parsePkcs1Failed
  | jsonUnmarshalFailed
  | getRegFailed (uri : String) (cause : Err)
  | updateRegFailed (contact : List String) (cause : Err)
deriving DecidableEq, Repr

/-- Whether an error is one of the source's wrapped (`fmt.Errorf` with a
cause) protocol errors. -/
def Err.isWrapped : Err → Bool
  | .getRegFailed _ _ => true
  | .updateRegFailed _ _ => true
  | _ => false

/-- Whether a wrapped error carries the attempted account URI. -/
def Err.carriesUri : Err → Bool
  | .getRegFailed _ _ => true
  | _ => false

/-- `x509.ParsePKCS1PrivateKey`: succeeds exactly on PKCS#1 RSA
payloads. -/
def parsePKCS1PrivateKey : Der → Except Err RsaKey
  | .pkcs1 k => .ok k
  | _ => .error .parsePkcs1Failed

/-- `x509.ParseECPrivateKey` (the standard parse routine for the EC
family): succeeds exactly on SEC1 EC payloads. -/
def parseECPrivateKey : Der → Except Err EcKey
  | .sec1 k => .ok k
  | _ => .error .parsePkcs1Failed

/-- `x509.MarshalPKCS1PrivateKey`. -/
def marshalPKCS1PrivateKey (k : RsaKey) : Der := .pkcs1 k

/-- `x509.MarshalECPrivateKey`: the source checks its error; in the
model marshalling a well-formed key succeeds. -/
def marshalECPrivateKey (k : EcKey) : Except Err Der := .ok (.sec1 k)

/-- `json.Unmarshal` into `acmeAccountRegistration`.
Modelled from the spec: decoding the legacy JSON blob yields its `URI`
field; any other bytes fail to unmarshal. -/
def jsonUnmarshalReg : Bytes → Except Err AcmeAccountRegistration
  | .json r => .ok r
  | _ => .error .jsonUnmarshalFailed

/-- An `acme.Account`: the authority-assigned URI and the ordered
contact list. -/
structure Account where
  uri : String
  contact : List String
deriving DecidableEq, Repr

/-- An `acme.Client`: the account key and the directory URL. -/
structure Client where
  key : Signer
  directoryURL : String
deriving DecidableEq, Repr

/-- Externally visible calls made by the core, in order. -/
inductive Event where
  | storeGet
  | storePut (m : List (String × Bytes))
  | register (contact : List String)
  | getReg (uri : String)
  | updateReg (uri : String) (contact : List String)
  | logInfo (msg : String)
deriving DecidableEq, Repr

/-- Result of running a function of the core: a value, a returned Go
error, or a runtime panic (nil-pointer dereference). -/
inductive Outcome (α : Type) where
  | ok (a : α)
  | err (e : Err)
  | crash (msg : String)
deriving DecidableEq, Repr

/-- The environment: configuration (`kubelego` interface), the account
store, the system random source, and the ACME directory client, all as
response functions. -/
structure Env where
  legoEmail : String
  legoURL : String
  legoKeyType : KeyType
  legoKeySize : Nat
  acmeUser : Except Err Store
  saveAcmeUser : Store → Except Err Unit
  rsaGen : Nat → Except Err RsaKey
  ecGen : Curve → Except Err EcKey
  registerResp : Account → Except Err Account
  getRegResp : String → Except Err Account
  updateRegResp : Account → Except Err Account

/-- `(a *Acme) getContact`: the single lower-cased mailto contact. -/
def getContact (env : Env) : List String :=
  ["mailto:" ++ env.legoEmail.toLower]

/-- `(a *Acme) acceptTos`: always agrees (after logging). -/
def acceptTos (tos : String) : Bool := true

/-- Curve selected by the `switch a.kubelego.LegoKeySize()` in
`generatePrivateKey` (the `default` arm maps every unlisted size to
P-384). -/
def ecCurveForSize (n : Nat) : Curve :=
  if n = 224 then .p224
  else if n = 256 then .p256
  else if n = 384 then .p384
  else if n = 521 then .p521
  else .p384

/-- `(a *Acme) generatePrivateKey`: fresh key of the configured
type/size, PEM-encoded, plus the in-memory signer. -/
def generatePrivateKey (env : Env) : Outcome (Bytes × Signer) :=
  if env.legoKeyType = KeyType.rsa then
    match env.rsaGen env.legoKeySize with
    | .error e => .err e
    | .ok privateKey =>
        .ok (.pem ⟨"RSA PRIVATE KEY", marshalPKCS1PrivateKey privateKey⟩,
             .rsa privateKey)
  else
    match env.ecGen (ecCurveForSize env.legoKeySize) with
    | .error e => .err e
    | .ok ecpk =>
        match marshalECPrivateKey ecpk with
        | .error e => .err e
        | .ok b => .ok (.pem ⟨"EC PRIVATE KEY", b⟩, .ec ecpk)

/-- `(a *Acme) createUser`: generate a key, register the account, and
persist the key PEM together with the assigned URI in one store write.
Returns the result paired with the trace of external calls. -/
def createUser (env : Env) : Outcome (Client × Account) × List Event :=
  match generatePrivateKey env with
  | .err e => (.err e, [])
  | .crash m => (.crash m, [])
  | .ok (privateKeyPem, privateKey) =>
    let client : Client := ⟨privateKey, env.legoURL⟩
    let account : Account := ⟨"", getContact env⟩
    match env.registerResp account with
    | .error e => (.err e, [.register account.contact])
    | .ok account' =>
      let logEv : Event := .logInfo
        ("created an ACME account (registration url: " ++ account'.uri ++ ")")
      let m : Store :=
        [(AcmePrivateKey, privateKeyPem),
         (AcmeRegistrationUrl, Bytes.str account'.uri)]
      match env.saveAcmeUser m with
      | .error e =>
          (.err e, [.register account.contact, logEv, .storePut m])
      | .ok _ =>
          (.ok (client, account'),
           [.register account.contact, logEv, .storePut m])

/-- `(a *Acme) getUser`: load the stored account.  The source calls
`pem.Decode` and dereferences `block.Bytes` without a nil check, so
data that is not a well-formed PEM block crashes with a nil-pointer
dereference (`Outcome.crash`). -/
def getUser (env : Env) : Outcome (Client × String) × List Event :=
  match env.acmeUser with
  | .error e => (.err e, [.storeGet])
  | .ok userData =>
    match lookupKey userData AcmePrivateKey with
    | none => (.err .missingPrivateKey, [.storeGet])
    | some privateKeyData =>
      match pemDecode privateKeyData with
      | none => (.crash "invalid memory address or nil pointer dereference",
                 [.storeGet])
      | some block =>
        match parsePKCS1PrivateKey block.bytes with
        | .error e => (.err e, [.storeGet])
        | .ok privateKey =>
          let client : Client := ⟨.rsa privateKey, env.legoURL⟩
          match lookupKey userData AcmeRegistrationUrl with
          | some accountURIBytes =>
              (.ok (client, accountURIBytes.asString), [.storeGet])
          | none =>
            match lookupKey userData AcmeRegistration with
            | none => (.err .missingAccountURI, [.storeGet])
            | some regData =>
              match jsonUnmarshalReg regData with
              | .error e => (.err e, [.storeGet])
              | .ok reg => (.ok (client, reg.uri), [.storeGet])

/-- `(a *Acme) validateUser`: fetch the account record by URI and, when
the authority's contact list differs from the expected one, issue a
single update carrying the expected list. -/
def validateUser (env : Env) (client : Client) (accountURI : String) :
    Outcome Account × List Event :=
  match env.getRegResp accountURI with
  | .error e => (.err (.getRegFailed accountURI e), [.getReg accountURI])
  | .ok account =>
    let contact := getContact env
    if account.contact = contact then
      (.ok account, [.getReg accountURI])
    else
      let account' : Account := ⟨account.uri, contact⟩
      match env.updateRegResp account' with
      | .error e =>
          (.err (.updateRegFailed contact e),
           [.getReg accountURI, .updateReg accountURI contact])
      | .ok account'' =>
          (.ok account'',
           [.getReg accountURI, .updateReg accountURI contact,
            .logInfo "updated ACME account's contact"])

/-- Number of `Register` calls in a trace. -/
def registerCalls (tr : List Event) : Nat :=
  (tr.filter fun e => match e with | .register _ => true | _ => false).length

/-- The store mappings written (arguments of `SaveAcmeUser` calls), in
order. -/
def putEvents (tr : List Event) : List (List (String × Bytes)) :=
  tr.filterMap fun e => match e with | .storePut m => some m | _ => none

/-- The contact lists carried by `UpdateReg` calls, in order. -/
def updateRegContacts (tr : List Event) : List (List String) :=
  tr.filterMap fun e => match e with | .updateReg _ c => some c | _ => none

/-- Number of directory-client (network) calls in a trace. -/
def networkCalls (tr : List Event) : Nat :=
  (tr.filter fun e => match e with
    | .register _ => true
    | .getReg _ => true
    | .updateReg _ _ => true
    | _ => false).length

/-! ### Concrete environments used by witnesses and counterexamples -/

/-- A well-behaved environment: RSA 2048 configuration, collaborators
succeed. -/
def baseEnv : Env where
  legoEmail := "Admin@Example.Com"
  legoURL := "https://acme-v01.api.example/directory"
  legoKeyType := .rsa
  legoKeySize := 2048
  acmeUser := .error (.external "secret not found")
  saveAcmeUser := fun _ => .ok ()
  rsaGen := fun bits => .ok ⟨bits, 7⟩
  ecGen := fun c => .ok ⟨c, 7⟩
  registerResp := fun a => .ok ⟨"https://acme.example/acct/1", a.contact⟩
  getRegResp := fun _ => .error (.external "account not found")
  updateRegResp := fun a => .ok a

/-- Environment whose stored private-key entry is not a well-formed PEM
block. -/
def envC1 : Env :=
  { baseEnv with acmeUser := .ok [(AcmePrivateKey, Bytes.raw "garbage")] }

/-- Environment in which the register call fails. -/
def envRegFail : Env :=
  { baseEnv with registerResp := fun _ => .error (.external "boom") }

/-- Environment in which the fetch (GetReg) call fails. -/
def envGetRegFail : Env :=
  { baseEnv with getRegResp := fun _ => .error (.external "directory down") }

/-- EC-configured environment (P-256). -/
def envEc : Env :=
  { baseEnv with legoKeyType := .ec, legoKeySize := 256 }

/-- The store contents written by `createUser` under `envEc`. -/
def ecStore : Store :=
  [(AcmePrivateKey, Bytes.pem ⟨"EC PRIVATE KEY", .sec1 ⟨.p256, 7⟩⟩),
   (AcmeRegistrationUrl, Bytes.str "https://acme.example/acct/1")]

/-! ### Claims -/

/-- C1: the claim says a stored private-key entry that is not a
well-formed PEM block makes `getUser` return an EncodingError with no
network call.  The source dereferences the nil result of `pem.Decode`,
so `getUser` crashes with a nil-pointer dereference instead of
returning an error; no directory-client call is made either way. -/
theorem getUser_malformed_pem_crashes :
    (getUser envC1).1 =
      Outcome.crash "invalid memory address or nil pointer dereference" ∧
    networkCalls (getUser envC1).2 = 0 := by
  exact ⟨rfl, rfl⟩

/-- C4: for any EC key size outside {224, 256, 384, 521}, the curve
switch falls through to its default arm and key generation behaves
identically to requesting size 384 (same P-384 curve). -/
theorem generatePrivateKey_unsupported_ec_size_defaults_to_384
    (env : Env) (hec : env.legoKeyType ≠ KeyType.rsa)
    (h224 : env.legoKeySize ≠ 224) (h256 : env.legoKeySize ≠ 256)
    (h384 : env.legoKeySize ≠ 384) (h521 : env.legoKeySize ≠ 521) :
    ecCurveForSize env.legoKeySize = Curve.p384 ∧
    generatePrivateKey env =
      generatePrivateKey { env with legoKeySize := 384 } := by
  have hc : ecCurveForSize env.legoKeySize = Curve.p384 := by
    simp [ecCurveForSize, h224, h256, h384, h521]
  have h384c : ecCurveForSize 384 = Curve.p384 := by simp [ecCurveForSize]
  refine ⟨hc, ?_⟩
  simp [generatePrivateKey, hec, hc, h384c]

/-- C4 witness: size 512 with an EC configuration. -/
theorem generatePrivateKey_size512_witness :
    ecCurveForSize ({ baseEnv with legoKeyType := .ec, legoKeySize := 512 } : Env).legoKeySize = Curve.p384 ∧
    generatePrivateKey { baseEnv with legoKeyType := .ec, legoKeySize := 512 } =
      generatePrivateKey { baseEnv with legoKeyType := .ec, legoKeySize := 384 } :=
  generatePrivateKey_unsupported_ec_size_defaults_to_384
    { baseEnv with legoKeyType := .ec, legoKeySize := 512 }
    (by decide) (by decide) (by decide) (by decide) (by decide)

/-- C5: the claim says an EC key persisted by `createUser` is decoded
again by `getUser`.  `getUser` parses every stored key with
`x509.ParsePKCS1PrivateKey`, the RSA-only routine, so the SEC1-encoded
EC key written by `createUser` fails to parse and loading errors out:
EC keys do not round-trip through the store. -/
theorem ec_key_does_not_roundtrip :
    putEvents (createUser envEc).2 = [ecStore] ∧
    (getUser { envEc with acmeUser := .ok ecStore }).1 =
      Outcome.err Err.parsePkcs1Failed := by
  exact ⟨rfl, rfl⟩

/-- C7: on the existing-account path (`getUser` then `validateUser`)
the store is only read, never written: no trace of either function
contains a store write. -/
theorem load_validate_never_write_store
    (env : Env) (client : Client) (uri : String) :
    putEvents (getUser env).2 = [] ∧
    putEvents (validateUser env client uri).2 = [] := by
  constructor
  · unfold getUser
    repeat' split
    all_goals rfl
  · unfold validateUser
    split
    · rfl
    · dsimp only
      repeat' split
      all_goals rfl

/-- C2: `createUser` makes exactly one register call, and on its
success persists the PEM-encoded private key and the assigned
registration URI together in one single store write. -/
theorem createUser_registers_once_and_persists_both
    (env : Env) (pemB : Bytes) (k : Signer) (a : Account)
    (hgen : generatePrivateKey env = .ok (pemB, k))
    (hreg : env.registerResp ⟨"", getContact env⟩ = .ok a)
    (hsave : env.saveAcmeUser
        [(AcmePrivateKey, pemB), (AcmeRegistrationUrl, Bytes.str a.uri)] =
      .ok ()) :
    registerCalls (createUser env).2 = 1 ∧
    putEvents (createUser env).2 =
      [[(AcmePrivateKey, pemB), (AcmeRegistrationUrl, Bytes.str a.uri)]] := by
  simp [createUser, hgen, hreg, hsave, registerCalls, putEvents]

/-- C2 witness: a concrete successful provisioning run. -/
theorem createUser_registers_once_and_persists_both_witness :
    registerCalls (createUser baseEnv).2 = 1 ∧
    putEvents (createUser baseEnv).2 =
      [[(AcmePrivateKey, Bytes.pem ⟨"RSA PRIVATE KEY", Der.pkcs1 ⟨2048, 7⟩⟩),
        (AcmeRegistrationUrl, Bytes.str "https://acme.example/acct/1")]] :=
  createUser_registers_once_and_persists_both baseEnv
    (Bytes.pem ⟨"RSA PRIVATE KEY", Der.pkcs1 ⟨2048, 7⟩⟩)
    (Signer.rsa ⟨2048, 7⟩)
    ⟨"https://acme.example/acct/1", getContact baseEnv⟩ rfl rfl rfl

/-- C3: `validateUser` compares the fetched contact list with the
expected single lower-cased mailto contact by order-sensitive list
equality; when equal, the only network call is the fetch (no update);
when different, exactly one update call is made carrying the expected
contact list. -/
theorem validateUser_contact_sync
    (env : Env) (client : Client) (uri : String) (a : Account)
    (hget : env.getRegResp uri = .ok a) :
    getContact env = ["mailto:" ++ env.legoEmail.toLower] ∧
    (a.contact = getContact env →
      (validateUser env client uri).2 = [Event.getReg uri]) ∧
    (a.contact ≠ getContact env →
      updateRegContacts (validateUser env client uri).2 = [getContact env]) := by
  refine ⟨rfl, ?_, ?_⟩
  · intro h
    simp [validateUser, hget, h]
  · intro h
    cases hu : env.updateRegResp ⟨a.uri, getContact env⟩ with
    | error e => simp [validateUser, hget, h, hu, updateRegContacts]
    | ok a2 => simp [validateUser, hget, h, hu, updateRegContacts]

/-- Environment whose directory account record already carries the
expected contact. -/
def envC3 : Env :=
  { baseEnv with getRegResp := fun u => .ok ⟨u, getContact baseEnv⟩ }

/-- C3 witness: matching contact yields a fetch and no update. -/
theorem validateUser_contact_sync_witness :
    (validateUser envC3 ⟨Signer.rsa ⟨2048, 7⟩, "d"⟩
        "https://acme.example/acct/1").2 =
      [Event.getReg "https://acme.example/acct/1"] :=
  ((validateUser_contact_sync envC3 ⟨Signer.rsa ⟨2048, 7⟩, "d"⟩
      "https://acme.example/acct/1"
      ⟨"https://acme.example/acct/1", getContact baseEnv⟩ rfl).2.1) rfl

/-- C6: stored data holding a private key and, instead of a direct
registration-URI entry, a legacy JSON registration blob, makes
`getUser` return the URI from the blob. -/
theorem getUser_legacy_registration
    (env : Env) (k : RsaKey) (reg : AcmeAccountRegistration)
    (h : env.acmeUser = .ok
      [(AcmePrivateKey, Bytes.pem ⟨"RSA PRIVATE KEY", Der.pkcs1 k⟩),
       (AcmeRegistration, Bytes.json reg)]) :
    (getUser env).1 = Outcome.ok (⟨Signer.rsa k, env.legoURL⟩, reg.uri) := by
  simp [getUser, h, lookupKey, pemDecode, parsePKCS1PrivateKey,
        jsonUnmarshalReg, AcmePrivateKey, AcmeRegistrationUrl, AcmeRegistration]

/-- Legacy-format stored account data: a private key plus the JSON
registration blob, and no direct URI entry. -/
def legacyStore : Store :=
  [(AcmePrivateKey, Bytes.pem ⟨"RSA PRIVATE KEY", Der.pkcs1 ⟨2048, 7⟩⟩),
   (AcmeRegistration, Bytes.json ⟨"https://example/acct/1"⟩)]

/-- Environment with legacy-format stored account data. -/
def envC6 : Env :=
  { baseEnv with acmeUser := .ok legacyStore }

/-- C6 witness: the legacy URI is resolved. -/
theorem getUser_legacy_registration_witness :
    (getUser envC6).1 =
      Outcome.ok (⟨Signer.rsa ⟨2048, 7⟩, envC6.legoURL⟩,
        "https://example/acct/1") :=
  getUser_legacy_registration envC6 ⟨2048, 7⟩ ⟨"https://example/acct/1"⟩ rfl

/-- C8: `generatePrivateKey` produces a PEM block whose type tag
matches the key family ("RSA PRIVATE KEY" / "EC PRIVATE KEY") and whose
DER payload parses back to the generated key via the standard parse
routine for that family. -/
theorem generatePrivateKey_pem_matches_family
    (env : Env) (pemB : Bytes) (s : Signer)
    (h : generatePrivateKey env = .ok (pemB, s)) :
    (∀ k, s = Signer.rsa k →
      pemB = Bytes.pem ⟨"RSA PRIVATE KEY", Der.pkcs1 k⟩ ∧
      parsePKCS1PrivateKey (Der.pkcs1 k) = .ok k) ∧
    (∀ k, s = Signer.ec k →
      pemB = Bytes.pem ⟨"EC PRIVATE KEY", Der.sec1 k⟩ ∧
      parseECPrivateKey (Der.sec1 k) = .ok k) := by
  unfold generatePrivateKey at h
  by_cases hkt : env.legoKeyType = KeyType.rsa
  · rw [if_pos hkt] at h
    cases hg : env.rsaGen env.legoKeySize with
    | error e => rw [hg] at h; simp at h
    | ok k0 =>
      rw [hg] at h
      simp only [Outcome.ok.injEq, Prod.mk.injEq] at h
      obtain ⟨h1, h2⟩ := h
      subst h1
      subst h2
      constructor
      · intro k hk
        injection hk with hkk
        subst hkk
        exact ⟨rfl, rfl⟩
      · intro k hk
        simp at hk
  · rw [if_neg hkt] at h
    cases hg : env.ecGen (ecCurveForSize env.legoKeySize) with
    | error e => rw [hg] at h; simp at h
    | ok k0 =>
      rw [hg] at h
      simp only [marshalECPrivateKey, Outcome.ok.injEq, Prod.mk.injEq] at h
      obtain ⟨h1, h2⟩ := h
      subst h1
      subst h2
      constructor
      · intro k hk
        simp at hk
      · intro k hk
        injection hk with hkk
        subst hkk
        exact ⟨rfl, rfl⟩

/-- C8 witness: concrete RSA and EC generations. -/
theorem generatePrivateKey_pem_matches_family_witness :
    (Bytes.pem ⟨"RSA PRIVATE KEY", Der.pkcs1 ⟨2048, 7⟩⟩ =
        Bytes.pem ⟨"RSA PRIVATE KEY", Der.pkcs1 ⟨2048, 7⟩⟩ ∧
      parsePKCS1PrivateKey (Der.pkcs1 ⟨2048, 7⟩) = .ok ⟨2048, 7⟩) ∧
    (Bytes.pem ⟨"EC PRIVATE KEY", Der.sec1 ⟨.p256, 7⟩⟩ =
        Bytes.pem ⟨"EC PRIVATE KEY", Der.sec1 ⟨.p256, 7⟩⟩ ∧
      parseECPrivateKey (Der.sec1 ⟨.p256, 7⟩) = .ok ⟨.p256, 7⟩) :=
  ⟨(generatePrivateKey_pem_matches_family baseEnv
      (Bytes.pem ⟨"RSA PRIVATE KEY", Der.pkcs1 ⟨2048, 7⟩⟩)
      (Signer.rsa ⟨2048, 7⟩) rfl).1 ⟨2048, 7⟩ rfl,
   (generatePrivateKey_pem_matches_family envEc
      (Bytes.pem ⟨"EC PRIVATE KEY", Der.sec1 ⟨.p256, 7⟩⟩)
      (Signer.ec ⟨.p256, 7⟩) rfl).2 ⟨.p256, 7⟩ rfl⟩

/-- C9 counterexample: a register failure is surfaced to the caller
untouched — it is not wrapped with any URI or cause, refuting the claim
that every register/fetch/update error is wrapped with the attempted
account URI. -/
theorem register_error_surfaced_unwrapped :
    (createUser envRegFail).1 = Outcome.err (Err.external "boom") ∧
    Err.isWrapped (Err.external "boom") = false ∧
    Err.carriesUri (Err.external "boom") = false :=
  ⟨rfl, rfl, rfl⟩

/-- C9 (amended): fetch (GetReg) errors are wrapped with the attempted
account URI and the cause; update (UpdateReg) errors are wrapped with
the expected contact list and the cause, not the URI; register errors
are returned to the caller unwrapped. -/
theorem directory_error_wrapping_by_call
    (env : Env) (client : Client) (uri : String) :
    (∀ e, env.getRegResp uri = .error e →
      (validateUser env client uri).1 =
        Outcome.err (Err.getRegFailed uri e)) ∧
    (∀ e a, env.getRegResp uri = .ok a → a.contact ≠ getContact env →
      env.updateRegResp ⟨a.uri, getContact env⟩ = .error e →
      (validateUser env client uri).1 =
        Outcome.err (Err.updateRegFailed (getContact env) e)) ∧
    (∀ e pemB k, generatePrivateKey env = .ok (pemB, k) →
      env.registerResp ⟨"", getContact env⟩ = .error e →
      (createUser env).1 = Outcome.err e) := by
  refine ⟨?_, ?_, ?_⟩
  · intro e he
    simp [validateUser, he]
  · intro e a ha hne hu
    simp [validateUser, ha, hne, hu]
  · intro e pemB k hg hr
    simp [createUser, hg, hr]

/-- C9 witness: a concrete failing fetch is wrapped with its URI. -/
theorem directory_error_wrapping_by_call_witness :
    (validateUser envGetRegFail ⟨Signer.rsa ⟨2048, 7⟩, "d"⟩
        "https://acme.example/acct/9").1 =
      Outcome.err (Err.getRegFailed "https://acme.example/acct/9"
        (Err.external "directory down")) :=
  (directory_error_wrapping_by_call envGetRegFail ⟨Signer.rsa ⟨2048, 7⟩, "d"⟩
      "https://acme.example/acct/9").1 (Err.external "directory down") rfl

/-- C10: when the register call fails, `createUser` returns that error
and never writes to the account store. -/
theorem createUser_register_failure_no_store_write
    (env : Env) (e : Err) (pemB : Bytes) (k : Signer)
    (hgen : generatePrivateKey env = .ok (pemB, k))
    (hreg : env.registerResp ⟨"", getContact env⟩ = .error e) :
    (createUser env).1 = Outcome.err e ∧
    putEvents (createUser env).2 = [] := by
  simp [createUser, hgen, hreg, putEvents]

/-- C10 witness: a concrete failing registration leaves the store
untouched. -/
theorem createUser_register_failure_no_store_write_witness :
    (createUser envRegFail).1 = Outcome.err (Err.external "boom") ∧
    putEvents (createUser envRegFail).2 = [] :=
  createUser_register_failure_no_store_write envRegFail (Err.external "boom")
    (Bytes.pem ⟨"RSA PRIVATE KEY", Der.pkcs1 ⟨2048, 7⟩⟩)
    (Signer.rsa ⟨2048, 7⟩) rfl rfl
